import Mathlib

/-!
Shallow embedding of the Compute Engine helper library
(`demo-suite/lib/google_cloud/gce.py` and
`demo-suite/lib/google_cloud/gce_appengine.py`).

Python dictionaries and JSON values are modelled by `JVal` (association
lists in insertion order); Python `None`-able string attributes by
`Option String`; Python truthiness by the `strTruthy` / `listTruthy` /
`jTruthy` predicates (an empty string, empty list, empty dict and `None`
are all falsy).  A Python expression that raises (KeyError on a missing
dictionary key, AttributeError on an attribute access against a plain
value or a missing back-reference) is modelled by an `Option`-returning
function evaluating to `none`.
-/

namespace Gce

/-- JSON-like values, as produced and consumed by the library.  Objects keep
their keys in insertion order, matching the dictionaries the code builds. -/
inductive JVal where
  | jnull
  | jstr (s : String)
  | jnum (n : Int)
  | jarr (xs : List JVal)
  | jobj (kvs : List (String × JVal))

/-- Dictionary lookup: `d.get(key)` / `d[key]` on the modelled object.
First match wins; the code never builds duplicate keys. -/
def jGet : List (String × JVal) → String → Option JVal
  | [], _ => none
  | (k, v) :: rest, key => if k == key then some v else jGet rest key

/-- Python truthiness of a JSON value: `None`, `''`, `[]`, `{}` and `0` are
falsy, everything else truthy. -/
def jTruthy : JVal → Bool
  | JVal.jnull => false
  | JVal.jstr s => !s.isEmpty
  | JVal.jnum n => n != 0
  | JVal.jarr xs => !xs.isEmpty
  | JVal.jobj kvs => !kvs.isEmpty

/-- Python truthiness of a `None`-able string attribute. -/
def strTruthy : Option String → Bool
  | none => false
  | some s => !s.isEmpty

/-- Python truthiness of a `None`-able list attribute. -/
def listTruthy : Option (List JVal) → Bool
  | none => false
  | some l => !l.isEmpty

/-- Python truthiness of a `None`-able JSON-valued attribute. -/
def optValTruthy : Option JVal → Bool
  | none => false
  | some v => jTruthy v

/-- A `None`-able string attribute placed into a dictionary:
`None` becomes JSON null. -/
def jOfOptStr : Option String → JVal
  | none => JVal.jnull
  | some s => JVal.jstr s

/-- A `None`-able list attribute placed into a dictionary:
`None` becomes JSON null. -/
def jOfOptList : Option (List JVal) → JVal
  | none => JVal.jnull
  | some xs => JVal.jarr xs

/-- `'%s' % x` for a `None`-able string: Python renders `None` as `'None'`. -/
def optStr : Option String → String
  | none => "None"
  | some s => s

/-- Reading a string out of a JSON value where the code immediately calls a
string method on it (`.split`), so any other shape raises. -/
def asStr : JVal → Option String
  | JVal.jstr s => some s
  | _ => none

/-- Assigning a JSON value to a string-typed attribute: null becomes `None`. -/
def asOptStr : JVal → Option (Option String)
  | JVal.jnull => some none
  | JVal.jstr s => some (some s)
  | _ => none

/-- Assigning a JSON value to a list-typed attribute: null becomes `None`. -/
def asOptList : JVal → Option (Option (List JVal))
  | JVal.jnull => some none
  | JVal.jarr xs => some (some xs)
  | _ => none

/-- `json_resource['x'].split('/')[-1]`: the last path segment of a URL. -/
def lastPart (s : String) : String :=
  (s.splitOn "/").getLastD ""

/-- Models `if json_resource.get(key, None): self.f = json_resource[key]` for
a string-typed field: missing or falsy keys leave the old value. -/
def optStrUpd (j : List (String × JVal)) (key : String) (old : Option String) :
    Option (Option String) :=
  match jGet j key with
  | none => some old
  | some v =>
    if jTruthy v then
      match v with
      | JVal.jstr s => some (some s)
      | _ => none
    else some old

/-- Models `if json_resource.get(key, None): self.f = json_resource[key]` for
a list-typed field. -/
def optListUpd (j : List (String × JVal)) (key : String) (old : Option (List JVal)) :
    Option (Option (List JVal)) :=
  match jGet j key with
  | none => some old
  | some v =>
    if jTruthy v then
      match v with
      | JVal.jarr xs => some (some xs)
      | _ => none
    else some old

/-- Models `if json_resource.get(key, None): self.f = json_resource[key]` for
a field holding an arbitrary JSON value (never raises). -/
def optValUpd (j : List (String × JVal)) (key : String) (old : Option JVal) :
    Option JVal :=
  match jGet j key with
  | none => old
  | some v => if jTruthy v then some v else old

/-- Models the nested pattern used for `tags` and `metadata`:
`if json.get(key): if json[key].get('items'): self.f = json[key]['items']`.
Calling `.get` on a truthy non-dictionary raises. -/
def optItemsUpd (j : List (String × JVal)) (key : String) (old : Option (List JVal)) :
    Option (Option (List JVal)) :=
  match jGet j key with
  | none => some old
  | some v =>
    if jTruthy v then
      match v with
      | JVal.jobj kvs =>
        match jGet kvs "items" with
        | none => some old
        | some iv =>
          if jTruthy iv then
            match iv with
            | JVal.jarr xs => some (some xs)
            | _ => none
          else some old
      | _ => none
    else some old

/-- `GOOGLE_PROJECT = 'google'` (gce.py line 37). -/
def GOOGLE_PROJECT : String := "google"

/-- The configuration values read from `settings.json` that the library
uses (`settings['compute'][...]` and `settings['project']`). -/
structure Settings where
  zone : String
  network : String
  machine_type : String
  image : String
  firewall_source_ranges : List JVal
  firewall_allowed : List JVal
  access_configs : JVal

/-- The project context a `GceProject` carries and resources read through
their `gce_project` back-reference: the versioned API base URL, the project
id, and the loaded settings.  The source attaches this context by mutating
`resource.gce_project`; here it is passed explicitly. -/
structure GceContext where
  gce_url : String
  project_id : String
  settings : Settings

/-- `Zone` resource (gce.py lines 773-817): only a name. -/
structure Zone where
  name : Option String

/-- `MachineType` resource (gce.py lines 726-770): only a name. -/
structure MachineType where
  name : Option String

/-- `Network` resource (gce.py lines 820-864): only a name. -/
structure Network where
  name : Option String

/-- `Image` resource (gce.py lines 622-723). -/
structure Image where
  name : Option String
  project : String
  description : Option String
  source_type : Option String
  preferred_kernel : Option String
  raw_disk : Option JVal

/-- A firewall's `network` attribute: constructed as a `Network` object, but
`Firewall.from_json` overwrites it with the raw JSON value of the
`network` key (gce.py line 590). -/
inductive FwNetwork where
  | net (n : Network)
  | raw (v : JVal)

/-- `Firewall` resource (gce.py lines 510-619). -/
structure Firewall where
  name : Option String
  description : Option String
  network : FwNetwork
  source_ranges : Option (List JVal)
  source_tags : Option (List JVal)
  target_tags : Option (List JVal)
  allowed : Option (List JVal)

/-- `Instance` resource (gce.py lines 357-507).  `kernel`, `status` and
`status_message` are attributes only ever created by `from_json`; on a
freshly constructed instance they are absent (`none`). -/
structure Instance where
  name : Option String
  zone : Zone
  description : Option String
  tags : Option (List JVal)
  image : Image
  machine_type : MachineType
  network_interfaces : Option (List JVal)
  disks : Option (List JVal)
  metadata : Option (List JVal)
  service_accounts : Option (List JVal)
  kernel : Option JVal
  status : Option JVal
  status_message : Option JVal

/-- `Zone()`: the resource `_list` constructs before `from_json`. -/
def emptyZone : Zone := { name := none }

/-- `Image()` with the default owning project `GOOGLE_PROJECT`. -/
def emptyImage : Image :=
  { name := none, project := GOOGLE_PROJECT, description := none,
    source_type := none, preferred_kernel := none, raw_disk := none }

/-- `Instance()`: all constructor arguments left at their defaults. -/
def emptyInstance : Instance :=
  { name := none, zone := emptyZone, description := none, tags := none,
    image := emptyImage, machine_type := { name := none },
    network_interfaces := none, disks := none, metadata := none,
    service_accounts := none, kernel := none, status := none,
    status_message := none }

/-- `Firewall()`: all constructor arguments left at their defaults. -/
def emptyFirewall : Firewall :=
  { name := none, description := none, network := FwNetwork.net { name := none },
    source_ranges := none, source_tags := none, target_tags := none,
    allowed := none }

/-- `Image.url` (gce.py lines 660-671). -/
def Image.url (ctx : GceContext) (im : Image) : String :=
  ctx.gce_url ++ "/projects/" ++ im.project ++ "/global/images/" ++ optStr im.name

/-- `MachineType.url` (gce.py lines 744-755). -/
def MachineType.url (ctx : GceContext) (m : MachineType) : String :=
  ctx.gce_url ++ "/projects/" ++ ctx.project_id ++ "/global/machineTypes/" ++ optStr m.name

/-- `Zone.url` (gce.py lines 791-802). -/
def Zone.url (ctx : GceContext) (z : Zone) : String :=
  ctx.gce_url ++ "/projects/" ++ ctx.project_id ++ "/global/zones/" ++ optStr z.name

/-- `Network.url` (gce.py lines 838-849). -/
def Network.url (ctx : GceContext) (n : Network) : String :=
  ctx.gce_url ++ "/projects/" ++ ctx.project_id ++ "/global/networks/" ++ optStr n.name

/-- `Instance.json` (gce.py lines 418-442): the insert body.  Note it never
emits a `zone` key. -/
def Instance.json (ctx : GceContext) (i : Instance) : List (String × JVal) :=
  [("name", jOfOptStr i.name),
   ("image", JVal.jstr (Image.url ctx i.image)),
   ("machineType", JVal.jstr (MachineType.url ctx i.machine_type)),
   ("networkInterfaces", jOfOptList i.network_interfaces)]
  ++ (if strTruthy i.description then [("description", jOfOptStr i.description)] else [])
  ++ (if listTruthy i.tags then [("tags", JVal.jobj [("items", jOfOptList i.tags)])] else [])
  ++ (if listTruthy i.disks then [("disks", jOfOptList i.disks)] else [])
  ++ (if listTruthy i.metadata then [("metadata", JVal.jobj [("items", jOfOptList i.metadata)])] else [])
  ++ (if listTruthy i.service_accounts then [("serviceAccounts", jOfOptList i.service_accounts)] else [])

/-- `Instance.from_json` (gce.py lines 444-473).  `name`, `zone`, `image`,
`machineType` and `networkInterfaces` are accessed with `[...]` and raise on
a missing key (`none`); `zone`, `image` and `machineType` are re-read as the
last URL path segment wrapped in fresh `Zone`/`Image`/`MachineType` objects.
Python raises at the first failing access; the grouped matches below yield
the same result (`none` exactly when any access fails). -/
def Instance.from_json (self : Instance) (j : List (String × JVal)) : Option Instance :=
  match jGet j "name", jGet j "zone", jGet j "image", jGet j "machineType",
        jGet j "networkInterfaces" with
  | some nameV, some zoneV, some imageV, some mtV, some niV =>
    match asOptStr nameV, asStr zoneV, asStr imageV, asStr mtV, asOptList niV with
    | some name, some zoneS, some imageS, some mtS, some ni =>
      match optStrUpd j "description" self.description, optItemsUpd j "tags" self.tags,
            optListUpd j "disks" self.disks, optItemsUpd j "metadata" self.metadata,
            optListUpd j "serviceAccounts" self.service_accounts with
      | some description, some tags, some disks, some metadata, some service_accounts =>
        some { self with
          name := name,
          zone := { name := some (lastPart zoneS) },
          image := { emptyImage with name := some (lastPart imageS) },
          machine_type := { name := some (lastPart mtS) },
          network_interfaces := ni,
          description := description, tags := tags,
          kernel := optValUpd j "kernel" self.kernel,
          status := optValUpd j "status" self.status,
          status_message := optValUpd j "statusMessage" self.status_message,
          disks := disks, metadata := metadata, service_accounts := service_accounts }
      | _, _, _, _, _ => none
    | _, _, _, _, _ => none
  | _, _, _, _, _ => none

/-- `Firewall.json` (gce.py lines 561-580).  `self.network.url` presupposes
`network` is still a `Network` object; on a raw value (after `from_json`) the
attribute access raises, modelled by `none`. -/
def Firewall.json (ctx : GceContext) (f : Firewall) : Option (List (String × JVal)) :=
  match f.network with
  | FwNetwork.raw _ => none
  | FwNetwork.net n =>
    some ([("name", jOfOptStr f.name),
           ("network", JVal.jstr (Network.url ctx n)),
           ("allowed", jOfOptList f.allowed)]
      ++ (if listTruthy f.source_ranges then [("sourceRanges", jOfOptList f.source_ranges)] else [])
      ++ (if listTruthy f.source_tags then [("sourceTags", jOfOptList f.source_tags)] else [])
      ++ (if listTruthy f.target_tags then [("targetTags", jOfOptList f.target_tags)] else []))

/-- `Firewall.from_json` (gce.py lines 582-597).  `network` is stored as the
raw JSON value; both the `sourceTags` and the `targetTags` keys assign to
`self.source_tags` (line 597), and `self.target_tags` is never assigned. -/
def Firewall.from_json (self : Firewall) (j : List (String × JVal)) : Option Firewall :=
  match jGet j "name", jGet j "network", jGet j "allowed" with
  | some nameV, some netV, some allowedV =>
    match asOptStr nameV, asOptList allowedV,
          optListUpd j "sourceRanges" self.source_ranges,
          optListUpd j "sourceTags" self.source_tags with
    | some name, some allowed, some source_ranges, some st1 =>
      match optListUpd j "targetTags" st1 with
      | some st2 =>
        some { self with
          name := name,
          network := FwNetwork.raw netV,
          allowed := allowed,
          source_ranges := source_ranges,
          source_tags := st2 }
      | none => none
    | _, _, _, _ => none
  | _, _, _ => none

/-- The dictionary `Image.json` builds locally (gce.py lines 681-691). -/
def Image.json_mapping (im : Image) : List (String × JVal) :=
  [("name", jOfOptStr im.name)]
  ++ (if strTruthy im.description then [("description", jOfOptStr im.description)] else [])
  ++ (if strTruthy im.source_type then [("sourceType", jOfOptStr im.source_type)] else [])
  ++ (if strTruthy im.preferred_kernel then [("preferredKernel", jOfOptStr im.preferred_kernel)] else [])
  ++ (if optValTruthy im.raw_disk then [("rawDisk", im.raw_disk.getD JVal.jnull)] else [])

/-- `Image.json` (gce.py lines 673-691): the property builds `image` but has
no `return` statement, so evaluating it yields `None`. -/
def Image.json (im : Image) : Option (List (String × JVal)) :=
  let _image := Image.json_mapping im
  none

/-- `Image.from_json` (gce.py lines 693-708). -/
def Image.from_json (self : Image) (j : List (String × JVal)) : Option Image :=
  match jGet j "name" with
  | some nameV =>
    match asOptStr nameV, optStrUpd j "description" self.description,
          optStrUpd j "sourceType" self.source_type,
          optStrUpd j "preferredKernel" self.preferred_kernel with
    | some name, some description, some source_type, some preferred_kernel =>
      some { self with
        name := name,
        description := description,
        source_type := source_type,
        preferred_kernel := preferred_kernel,
        raw_disk := optValUpd j "rawDisk" self.raw_disk }
    | _, _, _, _ => none
  | none => none

/-- `Zone.set_defaults` (gce.py lines 804-808). -/
def Zone.set_defaults (ctx : GceContext) (z : Zone) : Zone :=
  if strTruthy z.name then z else { z with name := some ctx.settings.zone }

/-- `MachineType.set_defaults` (gce.py lines 757-761). -/
def MachineType.set_defaults (ctx : GceContext) (m : MachineType) : MachineType :=
  if strTruthy m.name then m else { m with name := some ctx.settings.machine_type }

/-- `Network.set_defaults` (gce.py lines 851-855). -/
def Network.set_defaults (ctx : GceContext) (n : Network) : Network :=
  if strTruthy n.name then n else { n with name := some ctx.settings.network }

/-- `Image.set_defaults` (gce.py lines 710-714): only the name is defaulted. -/
def Image.set_defaults (ctx : GceContext) (im : Image) : Image :=
  if strTruthy im.name then im else { im with name := some ctx.settings.image }

/-- `Instance.set_defaults` (gce.py lines 475-498): attaches the project
context to the nested zone/image/machine type, defaults each nested name only
when it is falsy, and fills `network_interfaces` from configuration when
falsy. -/
def Instance.set_defaults (ctx : GceContext) (i : Instance) : Instance :=
  { i with
    zone := if strTruthy i.zone.name then i.zone else Zone.set_defaults ctx i.zone,
    image := if strTruthy i.image.name then i.image else Image.set_defaults ctx i.image,
    machine_type :=
      if strTruthy i.machine_type.name then i.machine_type
      else MachineType.set_defaults ctx i.machine_type,
    network_interfaces :=
      if listTruthy i.network_interfaces then i.network_interfaces
      else some [JVal.jobj
        [("network", JVal.jstr (Network.url ctx { name := some ctx.settings.network })),
         ("accessConfigs", ctx.settings.access_configs)]] }

/-- `Firewall.set_defaults` (gce.py lines 599-610).  When `network` is a raw
value the attribute access `self.network.name` raises; when the network name
is falsy, `self.network.set_defaults()` dereferences the network's absent
`gce_project` back-reference (never assigned for a firewall's nested network)
and raises.  Both cases are modelled by `none`. -/
def Firewall.set_defaults (ctx : GceContext) (f : Firewall) : Option Firewall :=
  match f.network with
  | FwNetwork.raw _ => none
  | FwNetwork.net n =>
    if strTruthy n.name then
      some { f with
        source_ranges :=
          if !listTruthy f.source_ranges && !listTruthy f.source_tags
          then some ctx.settings.firewall_source_ranges else f.source_ranges,
        allowed :=
          if listTruthy f.allowed then f.allowed
          else some ctx.settings.firewall_allowed }
    else none

/-- Modelled from the spec: the two domain error kinds of the
`gce_exception` module (its source is not included): a generic
provider-call failure (`GceError`) carrying a human-readable message, and
a token-refresh failure (`GceTokenError`); they are distinct kinds, and
`e.message` is the string the error was raised with. -/
inductive GceErr where
  | gceError (message : String)
  | gceTokenError (message : String)

/-- The exceptions `request.execute()` can raise inside `_run_request`
(gce.py lines 310-321): an API HTTP error exposing `resp.status` and
`resp.reason`, a low-level `httplib2.HttpLib2Error` transport error, and an
`oauth2client` `AccessTokenRefreshError`; the latter two carry detail text
that `_run_request` only logs. -/
inductive TransportErr where
  | httpError (status : Nat) (reason : String)
  | httpLib2Error (detail : String)
  | accessTokenRefreshError (detail : String)

/-- `GceProject._run_request` (gce.py lines 295-322), applied to the outcome
of `request.execute()`: a successful result is returned unchanged; an
`HttpError` is re-raised as `GceError('HttpError: %s %s' % (status, reason))`;
an `HttpLib2Error` as `GceError('Transport Error occurred')`; an
`AccessTokenRefreshError` as `GceTokenError('Access Token refresh error')`. -/
def runRequest {R : Type} (execute : Except TransportErr R) : Except GceErr R :=
  match execute with
  | Except.ok r => Except.ok r
  | Except.error (TransportErr.httpError st reason) =>
    Except.error (GceErr.gceError ("HttpError: " ++ toString st ++ " " ++ reason))
  | Except.error (TransportErr.httpLib2Error _) =>
    Except.error (GceErr.gceError "Transport Error occurred")
  | Except.error (TransportErr.accessTokenRefreshError _) =>
    Except.error (GceErr.gceTokenError "Access Token refresh error")

/-- One page of provider list results, as `_run_request` returns it inside
`_list`: the `items` array (missing modelled as `[]`), and whether
`list_next` will produce a further request (the provider supplied a
`nextPageToken`). -/
structure Page where
  items : List JVal
  hasNext : Bool

/-- `GceProject._list` (gce.py lines 194-232), over a trace of
`request.execute()` outcomes (one per page request): each page's items are
converted with `conv` (the `resource_class().from_json(result)` step) and
appended in order; the loop re-issues requests while `list_next` yields one;
a failing page propagates the translated error and discards everything. -/
def runListE {α : Type} (conv : JVal → α) :
    List (Except TransportErr Page) → Except GceErr (List α)
  | [] => Except.ok []
  | pexc :: rest =>
    match runRequest pexc with
    | Except.error e => Except.error e
    | Except.ok p =>
      if p.hasNext then
        match runListE conv rest with
        | Except.error e => Except.error e
        | Except.ok more => Except.ok (p.items.map conv ++ more)
      else Except.ok (p.items.map conv)

/-- A well-formed provider page trace: every page except the last offers a
next page, and the last does not. -/
def wfTrace : List Page → Bool
  | [] => true
  | [p] => !p.hasNext
  | p :: q :: rest => p.hasNext && wfTrace (q :: rest)

/-- The view of a listed resource the demo helper uses: `resource.name` and
`resource.status` (as populated by `from_json`). -/
structure DemoRes where
  name : String
  status : JVal

/-- An untyped Python return value as seen by `run_gce_request` callers:
a bare `return` / fall-off-the-end gives `None`; `_list` returns a list of
resource objects. -/
inductive PyVal where
  | pyNone
  | pyList (rs : List DemoRes)

/-- The webapp2 response surface the helper mutates: `set_status(code, msg)`,
`headers['Content-Type']`, and `out.write` (which appends to the body). -/
structure Response where
  status : Nat
  statusMessage : String
  contentType : Option String
  body : String

/-- A freshly created response: 200, no content type, empty body. -/
def initResponse : Response :=
  { status := 200, statusMessage := "OK", contentType := none, body := "" }

/-- `GceProject.insert` (gce.py lines 127-146) viewed through the outcome of
its single `_run_request` call: errors re-raise unchanged, success returns
`None` (the method has no `return`). -/
def insertGce (outcome : Except TransportErr JVal) : Except GceErr PyVal :=
  match runRequest outcome with
  | Except.ok _ => Except.ok PyVal.pyNone
  | Except.error e => Except.error e

/-- `GceProject.bulk_insert` (gce.py lines 148-169): one batched transport
call; errors re-raise unchanged, success returns `None`. -/
def bulkInsertGce (resources : List DemoRes)
    (outcome : Except TransportErr JVal) : Except GceErr PyVal :=
  match runRequest outcome with
  | Except.ok _ => Except.ok PyVal.pyNone
  | Except.error e => Except.error e

/-- `GceProject.bulk_delete` (gce.py lines 171-192): one batched transport
call; errors re-raise unchanged, success returns `None`. -/
def bulkDeleteGce (resources : List DemoRes)
    (outcome : Except TransportErr JVal) : Except GceErr PyVal :=
  match runRequest outcome with
  | Except.ok _ => Except.ok PyVal.pyNone
  | Except.error e => Except.error e

/-- A list method (`list_instances` et al.) as `run_gce_request` sees it:
`_list`'s aggregated resources wrapped as a Python list value. -/
def listGce (conv : JVal → DemoRes)
    (pages : List (Except TransportErr Page)) : Except GceErr PyVal :=
  match runListE conv pages with
  | Except.ok rs => Except.ok (PyVal.pyList rs)
  | Except.error e => Except.error e

/-- The keyword arguments `list_demo_resources`/`delete_demo_resources` pass
to the lister. -/
structure ListArgs where
  filter : String
  maxResults : Nat

/-- `MAX_RESULTS = 100` (gce_appengine.py line 22). -/
def MAX_RESULTS : Nat := 100

/-- `GceAppEngine.run_gce_request` (gce_appengine.py lines 90-115): invokes
the method with the supplied arguments; a `GceError` sets HTTP 500 with the
prefix plus the error's message and returns `None`; a `GceTokenError` sets
HTTP 401 with `'Unauthorized.'` and returns `None`; otherwise the method's
response is returned and the response object untouched. -/
def runGceRequest {A : Type} (resp : Response)
    (gce_method : A → Except GceErr PyVal) (error_message : String)
    (args : A) : Response × PyVal :=
  match gce_method args with
  | Except.ok r => (resp, r)
  | Except.error (GceErr.gceError m) =>
    ({ resp with status := 500, statusMessage := error_message ++ m }, PyVal.pyNone)
  | Except.error (GceErr.gceTokenError _) =>
    ({ resp with status := 401, statusMessage := "Unauthorized." }, PyVal.pyNone)

mutual

/-- `json.dumps` with Python's default separators (`', '` and `': '`). -/
def jsonDumps : JVal → String
  | JVal.jnull => "null"
  | JVal.jstr s => "\"" ++ s ++ "\""
  | JVal.jnum n => toString n
  | JVal.jarr xs => "[" ++ jsonDumpsList xs ++ "]"
  | JVal.jobj kvs => "\x7b" ++ jsonDumpsObj kvs ++ "\x7d"

def jsonDumpsList : List JVal → String
  | [] => ""
  | [v] => jsonDumps v
  | v :: rest => jsonDumps v ++ ", " ++ jsonDumpsList rest

def jsonDumpsObj : List (String × JVal) → String
  | [] => ""
  | [(k, v)] => "\"" ++ k ++ "\": " ++ jsonDumps v
  | (k, v) :: rest => "\"" ++ k ++ "\": " ++ jsonDumps v ++ ", " ++ jsonDumpsObj rest

end

/-- `GceAppEngine.list_demo_resources` (gce_appengine.py lines 27-56): lists
with filter `'name eq ^' + demo_name + '.*'` capped at `MAX_RESULTS`, builds
`{'resources': {name: {'status': status}}}` and writes it as JSON with
Content-Type `application/json`.  When `run_gce_request` returned `None`
(an error occurred), the subsequent `for resource in resources` raises:
modelled by `none`. -/
def listDemoResources (resp : Response) (demo_name : String)
    (lister : ListArgs → Except GceErr PyVal) : Option Response :=
  let rl := runGceRequest resp lister "Error listing resources: "
    { filter := "name eq ^" ++ demo_name ++ ".*", maxResults := MAX_RESULTS }
  match rl.2 with
  | PyVal.pyList resources =>
    let resource_dict := resources.map (fun r => (r.name, JVal.jobj [("status", r.status)]))
    let result_dict := JVal.jobj [("resources", JVal.jobj resource_dict)]
    some { rl.1 with
      contentType := some "application/json",
      body := rl.1.body ++ jsonDumps result_dict }
  | PyVal.pyNone => none

/-- `GceAppEngine.delete_demo_resources` (gce_appengine.py lines 58-88):
lists with filter `'name eq ^' + demo_name + '-.*'`; when matches exist,
runs the bulk delete through `run_gce_request` and then tests `if response:`
before writing the confirmation — but `bulk_delete` returns `None` on
success, so that branch only runs on a truthy (non-empty list) response, in
which case `self.response` (an attribute `GceAppEngine` does not have)
raises, modelled by `none`. -/
def deleteDemoResources (resp : Response) (demo_name : String)
    (lister : ListArgs → Except GceErr PyVal)
    (bulk_delete : List DemoRes → Except GceErr PyVal) : Option Response :=
  let rl := runGceRequest resp lister "Error listing resources: "
    { filter := "name eq ^" ++ demo_name ++ "-.*", maxResults := MAX_RESULTS }
  match rl.2 with
  | PyVal.pyNone => some rl.1
  | PyVal.pyList resources =>
    if resources.isEmpty then some rl.1
    else
      let rd := runGceRequest rl.1 bulk_delete "Error deleting resources: " resources
      match rd.2 with
      | PyVal.pyNone => some rd.1
      | PyVal.pyList rs2 => if rs2.isEmpty then some rd.1 else none

/-- A resource handed to `_delete_request`, tagged by its kind. -/
inductive Resource where
  | inst (i : Instance)
  | firewall (f : Firewall)
  | image (im : Image)
  | machineType (m : MachineType)
  | zone (z : Zone)
  | network (n : Network)

/-- The per-kind `__scope__` class attribute: only `Instance` is zonal. -/
def Resource.scope : Resource → String
  | Resource.inst _ => "zonal"
  | _ => "global"

/-- Per-kind `set_defaults` dispatch, as `_delete_request` invokes it. -/
def Resource.set_defaults (ctx : GceContext) : Resource → Option Resource
  | Resource.inst i => some (Resource.inst (Instance.set_defaults ctx i))
  | Resource.firewall f => (Firewall.set_defaults ctx f).map Resource.firewall
  | Resource.image im => some (Resource.image (Image.set_defaults ctx im))
  | Resource.machineType m => some (Resource.machineType (MachineType.set_defaults ctx m))
  | Resource.zone z => some (Resource.zone (Zone.set_defaults ctx z))
  | Resource.network n => some (Resource.network (Network.set_defaults ctx n))

/-- The parameters `GceProject._delete_request` (gce.py lines 270-293) puts
on the delete call: always `project`; `instance`/`image`/`firewall` name
keys only for those kinds (the `isinstance` checks); `zone` only for zonal
resources.  `set_defaults` runs first. -/
def delete_request_params (ctx : GceContext) (r : Resource) :
    Option (List (String × String)) :=
  match Resource.set_defaults ctx r with
  | none => none
  | some res =>
    let params0 := [("project", ctx.project_id)]
    let params1 := match res with
      | Resource.inst i => params0 ++ [("instance", optStr i.name)]
      | _ => params0
    let params2 := match res with
      | Resource.image im => params1 ++ [("image", optStr im.name)]
      | _ => params1
    let params3 := match res with
      | Resource.firewall f => params2 ++ [("firewall", optStr f.name)]
      | _ => params2
    let params4 :=
      if Resource.scope res == "zonal" then
        match res with
        | Resource.inst i => params3 ++ [("zone", optStr i.zone.name)]
        | _ => params3
      else params3
    some params4

/-- Concrete settings in the shape of the repository's `settings.json`,
used by witnesses and counterexamples. -/
def testSettings : Settings :=
  { zone := "us-central1-a", network := "default",
    machine_type := "n1-standard-1", image := "gcel-10-04-v20121106",
    firewall_source_ranges := [JVal.jstr "0.0.0.0/0"],
    firewall_allowed := [JVal.jobj [("IPProtocol", JVal.jstr "tcp"), ("ports", JVal.jarr [JVal.jstr "80"])]],
    access_configs := JVal.jarr [JVal.jobj [("type", JVal.jstr "ONE_TO_ONE_NAT")]] }

/-- A concrete project context for witnesses and counterexamples. -/
def testCtx : GceContext :=
  { gce_url := "https://www.googleapis.com/compute/v1beta14",
    project_id := "test-project", settings := testSettings }

/-- A concrete firewall with a set name and network, used by witnesses. -/
def fwWit : Firewall :=
  { emptyFirewall with
    name := some "fw", network := FwNetwork.net { name := some "default" } }

/-- `fwWit` after `set_defaults` under `testCtx`: only the unset
`source_ranges` and `allowed` are filled from configuration. -/
def fwWitDefaulted : Firewall :=
  { fwWit with
    source_ranges := some testSettings.firewall_source_ranges,
    allowed := some testSettings.firewall_allowed }

/-- `Instance(zone_name='')`: the caller explicitly passes the empty string
as the zone name. -/
def instZoneEmpty : Instance := { emptyInstance with zone := { name := some "" } }

/-- An instance whose zone name is set to a non-empty value. -/
def instWitness : Instance := { emptyInstance with zone := { name := some "europe-west1-a" } }

/-- A fully populated instance, every constructor field non-empty at
serialization time. -/
def instFull : Instance :=
  { name := some "demo-1", zone := { name := some "us-east1-a" },
    description := some "a demo instance", tags := some [JVal.jstr "demo"],
    image := { emptyImage with name := some "gcel-10-04" },
    machine_type := { name := some "n1-standard-1" },
    network_interfaces := some [JVal.jobj [("network", JVal.jstr "default")]],
    disks := some [JVal.jobj [("type", JVal.jstr "EPHEMERAL")]],
    metadata := some [JVal.jobj [("key", JVal.jstr "k"), ("value", JVal.jstr "v")]],
    service_accounts := some [JVal.jobj [("email", JVal.jstr "default")]],
    kernel := none, status := none, status_message := none }

/-- The serialize-then-parse round trip for a firewall, exactly as `_list`
performs it: `json` on the given firewall, then `from_json` on a freshly
constructed `Firewall()`. -/
def roundtripFw (ctx : GceContext) (f : Firewall) : Option Firewall :=
  (Firewall.json ctx f).bind (Firewall.from_json emptyFirewall)

/-- A fully populated firewall, every constructor field non-empty at
serialization time. -/
def fwRound : Firewall :=
  { name := some "fw1", description := some "demo firewall",
    network := FwNetwork.net { name := some "default" },
    source_ranges := some [JVal.jstr "10.0.0.0/8"],
    source_tags := some [JVal.jstr "frontend"],
    target_tags := some [JVal.jstr "backend"],
    allowed := some [JVal.jobj [("IPProtocol", JVal.jstr "tcp")]] }

/-- Reading back a serialized `None`-able string attribute recovers it. -/
@[simp] theorem asOptStr_jOfOptStr (o : Option String) : asOptStr (jOfOptStr o) = some o := by
  cases o <;> rfl

/-- Reading back a serialized `None`-able list attribute recovers it. -/
@[simp] theorem asOptList_jOfOptList (o : Option (List JVal)) :
    asOptList (jOfOptList o) = some o := by
  cases o <;> rfl

/-- Truthiness of a serialized `None`-able list matches the attribute's. -/
@[simp] theorem jTruthy_jOfOptList (o : Option (List JVal)) :
    jTruthy (jOfOptList o) = listTruthy o := by
  cases o <;> rfl

/-- C5.  For every request executed through `_run_request`: an HTTP-level
error response raises `GceError` with message `'HttpError: <status>
<reason>'`; a low-level transport error raises `GceError` with fixed text; a
token-refresh failure raises `GceTokenError` whose message is a constant
independent of the underlying error's detail; a successful execution is
returned unchanged, with no other translation. -/
theorem c5_run_request_errors {R : Type} :
    (∀ r : R, runRequest (Except.ok r : Except TransportErr R) = Except.ok r)
    ∧ (∀ st reason, runRequest (Except.error (TransportErr.httpError st reason) : Except TransportErr R)
        = Except.error (GceErr.gceError ("HttpError: " ++ toString st ++ " " ++ reason)))
    ∧ (∀ d, runRequest (Except.error (TransportErr.httpLib2Error d) : Except TransportErr R)
        = Except.error (GceErr.gceError "Transport Error occurred"))
    ∧ (∀ d, runRequest (Except.error (TransportErr.accessTokenRefreshError d) : Except TransportErr R)
        = Except.error (GceErr.gceTokenError "Access Token refresh error")) :=
  ⟨fun _ => rfl, fun _ _ => rfl, fun _ => rfl, fun _ => rfl⟩

/-- C4.  `run_gce_request` invokes the method on the supplied arguments; a
`GceError` sets status 500 with the prefix plus the error's message and
yields no result (`None`); a `GceTokenError` sets status 401 with
`'Unauthorized.'` and yields no result; otherwise the method's response is
returned with the response object untouched. -/
theorem c4_run_gce_request {A : Type} (resp : Response)
    (m : A → Except GceErr PyVal) (msg : String) (a : A) :
    (∀ r, m a = Except.ok r → runGceRequest resp m msg a = (resp, r))
    ∧ (∀ em, m a = Except.error (GceErr.gceError em) →
        runGceRequest resp m msg a =
          ({ resp with status := 500, statusMessage := msg ++ em }, PyVal.pyNone))
    ∧ (∀ tm, m a = Except.error (GceErr.gceTokenError tm) →
        runGceRequest resp m msg a =
          ({ resp with status := 401, statusMessage := "Unauthorized." }, PyVal.pyNone)) := by
  refine ⟨fun r h => ?_, fun em h => ?_, fun tm h => ?_⟩ <;>
    simp [runGceRequest, h]

/-- Witness for C4: the three translations at concrete methods. -/
theorem c4_run_gce_request_witness :
    runGceRequest initResponse (fun _ : Unit => Except.ok (PyVal.pyList [])) "E: " ()
      = (initResponse, PyVal.pyList [])
    ∧ runGceRequest initResponse (fun _ : Unit => Except.error (GceErr.gceError "boom")) "E: " ()
      = ({ initResponse with status := 500, statusMessage := "E: boom" }, PyVal.pyNone)
    ∧ runGceRequest initResponse (fun _ : Unit => Except.error (GceErr.gceTokenError "t")) "E: " ()
      = ({ initResponse with status := 401, statusMessage := "Unauthorized." }, PyVal.pyNone) :=
  ⟨(c4_run_gce_request initResponse _ "E: " ()).1 _ rfl,
   (c4_run_gce_request initResponse _ "E: " ()).2.1 "boom" rfl,
   (c4_run_gce_request initResponse _ "E: " ()).2.2 "t" rfl⟩

/-- C2.  `Image.json` computes the wire-format mapping — `name`, plus
`description`, `sourceType`, `preferredKernel`, `rawDisk` exactly when each
is truthy — but never returns it: for every image the property evaluates to
`None`. -/
theorem c2_image_json_none (im : Image) :
    Image.json im = none
    ∧ jGet (Image.json_mapping im) "name" = some (jOfOptStr im.name)
    ∧ jGet (Image.json_mapping im) "description"
        = (if strTruthy im.description then some (jOfOptStr im.description) else none)
    ∧ jGet (Image.json_mapping im) "sourceType"
        = (if strTruthy im.source_type then some (jOfOptStr im.source_type) else none)
    ∧ jGet (Image.json_mapping im) "preferredKernel"
        = (if strTruthy im.preferred_kernel then some (jOfOptStr im.preferred_kernel) else none)
    ∧ jGet (Image.json_mapping im) "rawDisk"
        = (if optValTruthy im.raw_disk then some (im.raw_disk.getD JVal.jnull) else none) := by
  refine ⟨rfl, ?_, ?_, ?_, ?_, ?_⟩ <;>
  · cases h1 : strTruthy im.description <;>
      cases h2 : strTruthy im.source_type <;>
        cases h3 : strTruthy im.preferred_kernel <;>
          cases h4 : optValTruthy im.raw_disk <;>
            simp [Image.json_mapping, jGet, h1, h2, h3, h4]

/-- C8 (code bug evidence).  A non-empty match list and a *successful* bulk
delete: `delete_demo_resources` returns the response completely unchanged —
no `text/plain` header and no `'stopping cluster'` body — because
`bulk_delete` returns `None` on success, so `if response:` is never true. -/
theorem c8_delete_demo_no_confirmation :
    deleteDemoResources initResponse "demo"
      (fun _ => Except.ok (PyVal.pyList [{ name := "demo-1", status := JVal.jstr "RUNNING" }]))
      (fun _ => Except.ok PyVal.pyNone)
      = some initResponse := rfl

/-- C9.  The delete request carries a resource-name parameter only for
`Instance` (`instance`), `Image` (`image`) and `Firewall` (`firewall`); for
`MachineType`, `Zone` and `Network` it carries only the project, so deletes
of those kinds are not keyed by name. -/
theorem c9_delete_request_params (ctx : GceContext) :
    (∀ m, delete_request_params ctx (Resource.machineType m)
        = some [("project", ctx.project_id)])
    ∧ (∀ z, delete_request_params ctx (Resource.zone z)
        = some [("project", ctx.project_id)])
    ∧ (∀ n, delete_request_params ctx (Resource.network n)
        = some [("project", ctx.project_id)])
    ∧ (∀ i, delete_request_params ctx (Resource.inst i)
        = some [("project", ctx.project_id),
                ("instance", optStr (Instance.set_defaults ctx i).name),
                ("zone", optStr (Instance.set_defaults ctx i).zone.name)])
    ∧ (∀ im, delete_request_params ctx (Resource.image im)
        = some [("project", ctx.project_id),
                ("image", optStr (Image.set_defaults ctx im).name)])
    ∧ (∀ f fd, Firewall.set_defaults ctx f = some fd →
        delete_request_params ctx (Resource.firewall f)
          = some [("project", ctx.project_id), ("firewall", optStr fd.name)]) := by
  refine ⟨fun m => rfl, fun z => rfl, fun n => rfl, fun i => rfl, fun im => rfl,
    fun f fd h => ?_⟩
  simp [delete_request_params, Resource.set_defaults, h, Resource.scope]

/-- Witness for C9: the firewall case at a concrete firewall whose defaults
succeed. -/
theorem c9_delete_request_params_witness :
    Firewall.set_defaults testCtx fwWit = some fwWitDefaulted
    ∧ delete_request_params testCtx (Resource.firewall fwWit)
      = some [("project", "test-project"), ("firewall", "fw")] :=
  ⟨rfl, (c9_delete_request_params testCtx).2.2.2.2.2 fwWit fwWitDefaulted rfl⟩

/-- C10.  `insert`, `bulk_insert` and `bulk_delete` all return `None` on
success; through `run_gce_request` their result is `None` no matter whether
the call succeeded or failed, so the caller cannot tell the two apart from
the result alone; a list operation's success returns the (non-`None`) list
of resources. -/
theorem c10_return_values :
    (∀ v, insertGce (Except.ok v) = Except.ok PyVal.pyNone)
    ∧ (∀ rs v, bulkInsertGce rs (Except.ok v) = Except.ok PyVal.pyNone)
    ∧ (∀ rs v, bulkDeleteGce rs (Except.ok v) = Except.ok PyVal.pyNone)
    ∧ (∀ (resp : Response) (msg : String) (outcome : Except TransportErr JVal)
        (rs : List DemoRes),
        (runGceRequest resp (fun _ : Unit => insertGce outcome) msg ()).2 = PyVal.pyNone
        ∧ (runGceRequest resp (bulkInsertGce rs) msg outcome).2 = PyVal.pyNone
        ∧ (runGceRequest resp (bulkDeleteGce rs) msg outcome).2 = PyVal.pyNone)
    ∧ (∀ (conv : JVal → DemoRes) (pages : List (Except TransportErr Page)) rs
        (resp : Response) (msg : String),
        runListE conv pages = Except.ok rs →
        (runGceRequest resp (fun _ : Unit => listGce conv pages) msg ()).2 = PyVal.pyList rs
        ∧ PyVal.pyList rs ≠ PyVal.pyNone) := by
  refine ⟨fun v => rfl, fun rs v => rfl, fun rs v => rfl,
    fun resp msg outcome rs => ⟨?_, ?_, ?_⟩,
    fun conv pages rs resp msg h => ⟨?_, by simp⟩⟩
  · rcases outcome with e | v
    · cases e <;> rfl
    · rfl
  · rcases outcome with e | v
    · cases e <;> rfl
    · rfl
  · rcases outcome with e | v
    · cases e <;> rfl
    · rfl
  · simp [runGceRequest, listGce, h]

/-- Witness for C10: the list conjunct at a concrete one-page trace. -/
theorem c10_return_values_witness :
    runListE (fun v => { name := "demo-1", status := v : DemoRes })
        [Except.ok { items := [JVal.jstr "RUNNING"], hasNext := false }]
      = Except.ok [{ name := "demo-1", status := JVal.jstr "RUNNING" }]
    ∧ (runGceRequest initResponse
        (fun _ : Unit => listGce (fun v => { name := "demo-1", status := v })
          [Except.ok { items := [JVal.jstr "RUNNING"], hasNext := false }]) "E: " ()).2
      = PyVal.pyList [{ name := "demo-1", status := JVal.jstr "RUNNING" }] :=
  ⟨rfl,
   (c10_return_values.2.2.2.2 (fun v => { name := "demo-1", status := v })
      [Except.ok { items := [JVal.jstr "RUNNING"], hasNext := false }]
      [{ name := "demo-1", status := JVal.jstr "RUNNING" }]
      initResponse "E: " rfl).1⟩

/-- C6.  Over every well-formed trace of successful provider pages (each page
but the last signalling a next page, the last not — 0, 1 or N pages), `_list`
keeps requesting while a next page is signalled and returns the concatenation
of every page's items, each converted by the `from_json` step, in the order
pages and items were received. -/
theorem c6_list_pagination {α : Type} (conv : JVal → α) (pages : List Page)
    (h : wfTrace pages = true) :
    runListE conv (pages.map Except.ok)
      = Except.ok ((pages.map Page.items).flatten.map conv) := by
  induction pages with
  | nil => rfl
  | cons p rest ih =>
    cases rest with
    | nil =>
      have hp : p.hasNext = false := by
        simpa [wfTrace] using h
      simp [runListE, runRequest, hp]
    | cons q rest2 =>
      have hp : p.hasNext = true := by
        have := h
        simp [wfTrace] at this
        exact this.1
      have hrest : wfTrace (q :: rest2) = true := by
        have := h
        simp [wfTrace] at this
        exact this.2
      have step : runListE conv (List.map Except.ok (p :: q :: rest2))
          = match runListE conv (List.map Except.ok (q :: rest2)) with
            | Except.error e => Except.error e
            | Except.ok more => Except.ok (p.items.map conv ++ more) := by
        simp only [List.map_cons, runListE, runRequest, hp, if_true]
      rw [step, ih hrest]
      simp [List.flatten]

/-- Witness for C6: a concrete two-page trace, converted with the real
`Instance.from_json` step on a fresh instance. -/
theorem c6_list_pagination_witness :
    wfTrace [{ items := [JVal.jstr "a"], hasNext := true },
             { items := [JVal.jstr "b"], hasNext := false }] = true
    ∧ runListE (Instance.from_json emptyInstance ∘ fun v => [("item", v)])
        [Except.ok { items := [JVal.jstr "a"], hasNext := true },
         Except.ok { items := [JVal.jstr "b"], hasNext := false }]
      = Except.ok [Instance.from_json emptyInstance [("item", JVal.jstr "a")],
                   Instance.from_json emptyInstance [("item", JVal.jstr "b")]] :=
  ⟨rfl,
   c6_list_pagination (Instance.from_json emptyInstance ∘ fun v => [("item", v)])
     [{ items := [JVal.jstr "a"], hasNext := true },
      { items := [JVal.jstr "b"], hasNext := false }] rfl⟩

/-- C3.  When the lister succeeds for the filter prefix `demo` with resources
named `demoA-1` and `demoB-2`, `list_demo_resources` sets Content-Type
`application/json` and writes exactly the serialization of
`{"resources": {"demoA-1": {"status": ...}, "demoB-2": {"status": ...}}}`. -/
theorem c3_list_demo_resources (resp : Response) (st1 st2 : JVal)
    (lister : ListArgs → Except GceErr PyVal)
    (h : lister { filter := "name eq ^demo.*", maxResults := 100 }
      = Except.ok (PyVal.pyList
          [{ name := "demoA-1", status := st1 }, { name := "demoB-2", status := st2 }])) :
    listDemoResources resp "demo" lister
      = some { resp with
          contentType := some "application/json",
          body := resp.body ++ jsonDumps (JVal.jobj
            [("resources", JVal.jobj
              [("demoA-1", JVal.jobj [("status", st1)]),
               ("demoB-2", JVal.jobj [("status", st2)])])]) } := by
  simp [listDemoResources, runGceRequest, MAX_RESULTS, h]

/-- Witness for C3: at concrete statuses the body is the literal JSON text
the claim states. -/
theorem c3_list_demo_resources_witness :
    listDemoResources initResponse "demo"
      (fun _ => Except.ok (PyVal.pyList
        [{ name := "demoA-1", status := JVal.jstr "RUNNING" },
         { name := "demoB-2", status := JVal.jstr "STAGING" }]))
      = some { initResponse with
          contentType := some "application/json",
          body := "\x7b\"resources\": \x7b\"demoA-1\": \x7b\"status\": \"RUNNING\"\x7d, \"demoB-2\": \x7b\"status\": \"STAGING\"\x7d\x7d\x7d" } := by
  have h := c3_list_demo_resources initResponse (JVal.jstr "RUNNING") (JVal.jstr "STAGING")
    (fun _ => Except.ok (PyVal.pyList
      [{ name := "demoA-1", status := JVal.jstr "RUNNING" },
       { name := "demoB-2", status := JVal.jstr "STAGING" }])) rfl
  exact h.trans rfl

/-- C7, counterexample to the claim as stated.  A caller who explicitly sets
the zone name to the empty string (`Instance(zone_name='')`) does not keep
that value: `set_defaults` tests truthiness (`if not self.zone.name`), so the
explicitly set empty string is overwritten with the configured default
zone. -/
theorem c7_set_defaults_counterexample :
    instZoneEmpty.zone.name = some ""
    ∧ (Instance.set_defaults testCtx instZoneEmpty).zone.name ≠ instZoneEmpty.zone.name := by
  exact ⟨rfl, by decide⟩

/-- C7, amended: `set_defaults` leaves every field holding a truthy
(non-`None`, non-empty) value unchanged; only fields that are `None` or
empty — which the code treats as unset — may be filled from configuration.
Fields the relevant `set_defaults` never touches are always unchanged. -/
theorem c7_set_defaults_amended (ctx : GceContext) :
    (∀ z : Zone, strTruthy z.name = true → Zone.set_defaults ctx z = z)
    ∧ (∀ m : MachineType, strTruthy m.name = true → MachineType.set_defaults ctx m = m)
    ∧ (∀ n : Network, strTruthy n.name = true → Network.set_defaults ctx n = n)
    ∧ (∀ im : Image, strTruthy im.name = true → Image.set_defaults ctx im = im)
    ∧ (∀ f fd : Firewall, Firewall.set_defaults ctx f = some fd →
        fd.name = f.name ∧ fd.description = f.description ∧ fd.network = f.network
        ∧ fd.source_tags = f.source_tags ∧ fd.target_tags = f.target_tags
        ∧ (listTruthy f.source_ranges = true → fd.source_ranges = f.source_ranges)
        ∧ (listTruthy f.allowed = true → fd.allowed = f.allowed))
    ∧ (∀ i : Instance,
        (Instance.set_defaults ctx i).name = i.name
        ∧ (Instance.set_defaults ctx i).description = i.description
        ∧ (Instance.set_defaults ctx i).tags = i.tags
        ∧ (Instance.set_defaults ctx i).disks = i.disks
        ∧ (Instance.set_defaults ctx i).metadata = i.metadata
        ∧ (Instance.set_defaults ctx i).service_accounts = i.service_accounts
        ∧ (strTruthy i.zone.name = true → (Instance.set_defaults ctx i).zone = i.zone)
        ∧ (strTruthy i.image.name = true → (Instance.set_defaults ctx i).image = i.image)
        ∧ (strTruthy i.machine_type.name = true →
            (Instance.set_defaults ctx i).machine_type = i.machine_type)
        ∧ (listTruthy i.network_interfaces = true →
            (Instance.set_defaults ctx i).network_interfaces = i.network_interfaces)) := by
  refine ⟨fun z h => ?_, fun m h => ?_, fun n h => ?_, fun im h => ?_,
    fun f fd h => ?_, fun i => ?_⟩
  · simp [Zone.set_defaults, h]
  · simp [MachineType.set_defaults, h]
  · simp [Network.set_defaults, h]
  · simp [Image.set_defaults, h]
  · cases hfn : f.network with
    | raw v => simp [Firewall.set_defaults, hfn] at h
    | net n =>
      cases hnm : strTruthy n.name with
      | false => simp [Firewall.set_defaults, hfn, hnm] at h
      | true =>
        simp [Firewall.set_defaults, hfn, hnm] at h
        refine ⟨?_, ?_, ?_, ?_, ?_, fun hsr => ?_, fun hal => ?_⟩
        · rw [← h]
        · rw [← h]
        · rw [← h]
        · rw [← h]
        · rw [← h]
        · rw [← h]; simp [hsr]
        · rw [← h]; simp [hal]
  · refine ⟨rfl, rfl, rfl, rfl, rfl, rfl, fun h => ?_, fun h => ?_, fun h => ?_,
      fun h => ?_⟩ <;> simp [Instance.set_defaults, h]

/-- Witness for C7: a truthy zone name is preserved, standalone and inside
`Instance.set_defaults`. -/
theorem c7_set_defaults_amended_witness :
    (strTruthy (some "us-east1-b") = true
      ∧ Zone.set_defaults testCtx { name := some "us-east1-b" } = { name := some "us-east1-b" })
    ∧ (strTruthy instWitness.zone.name = true
      ∧ (Instance.set_defaults testCtx instWitness).zone = instWitness.zone) :=
  ⟨⟨rfl, (c7_set_defaults_amended testCtx).1 { name := some "us-east1-b" } rfl⟩,
   ⟨rfl, ((c7_set_defaults_amended testCtx).2.2.2.2.2 instWitness).2.2.2.2.2.2.1 rfl⟩⟩

set_option maxHeartbeats 1600000 in
/-- C1, counterexample to the claim as stated.  For a fully populated
instance, `from_json(instance.json)` does not yield a resource at all:
`Instance.json` never emits a `zone` key, while `Instance.from_json`
unconditionally reads `json_resource['zone']`, raising a KeyError. -/
theorem c1_roundtrip_counterexample :
    Instance.from_json emptyInstance (Instance.json testCtx instFull) = none := rfl

set_option maxHeartbeats 3200000 in
/-- C1, amended.  The serialize/parse round trip does not hold as stated for
any of the three kinds.  What holds: (1) for every Instance,
`from_json(instance.json)` fails outright (the serialized form lacks the
required `zone` key); (2) for every Image, `json` evaluates to `None`, so
`from_json` cannot even be applied to it; (3) for a Firewall (whose
`network` is still a `Network` object), the round trip succeeds and recovers
`name`, `allowed`, and a truthy `sourceRanges`, but `network` is re-read as
the full URL string instead of a `Network` with the bare name, `description`
is not serialized at all, a truthy `targetTags` is stored into the
`source_tags` field (clobbering any serialized `sourceTags`), and
`target_tags` itself is always lost. -/
theorem c1_roundtrip_amended :
    (∀ (ctx : GceContext) (i : Instance),
      Instance.from_json emptyInstance (Instance.json ctx i) = none)
    ∧ (∀ im : Image, Image.json im = none)
    ∧ (∀ (ctx : GceContext) (fw : Firewall) (n : Network),
        fw.network = FwNetwork.net n →
        (roundtripFw ctx fw).map Firewall.name = some fw.name
        ∧ (roundtripFw ctx fw).map Firewall.allowed = some fw.allowed
        ∧ (roundtripFw ctx fw).map Firewall.network
            = some (FwNetwork.raw (JVal.jstr (Network.url ctx n)))
        ∧ (roundtripFw ctx fw).map Firewall.description = some none
        ∧ (roundtripFw ctx fw).map Firewall.target_tags = some none
        ∧ (roundtripFw ctx fw).map Firewall.source_ranges
            = some (if listTruthy fw.source_ranges then fw.source_ranges else none)
        ∧ (roundtripFw ctx fw).map Firewall.source_tags
            = some (if listTruthy fw.target_tags then fw.target_tags
                    else if listTruthy fw.source_tags then fw.source_tags else none)) := by
  refine ⟨fun ctx i => ?_, fun im => rfl, fun ctx fw n hnet => ?_⟩
  · have hzone : jGet (Instance.json ctx i) "zone" = none := by
      unfold Instance.json
      cases h1 : strTruthy i.description <;> cases h2 : listTruthy i.tags <;>
        cases h3 : listTruthy i.disks <;> cases h4 : listTruthy i.metadata <;>
          cases h5 : listTruthy i.service_accounts <;> rfl
    have hname : jGet (Instance.json ctx i) "name" = some (jOfOptStr i.name) := rfl
    simp only [Instance.from_json, hname, hzone, asOptStr_jOfOptStr,
      Option.some_bind, Option.none_bind, Option.bind_eq_bind]
  · obtain ⟨nm, ds, nw, sr, st, tt, al⟩ := fw
    cases hnet
    rcases nm with _ | nmS <;> rcases al with _ | alL <;>
      rcases sr with _ | (_ | ⟨x1, srL⟩) <;> rcases st with _ | (_ | ⟨x2, stL⟩) <;>
        rcases tt with _ | (_ | ⟨x3, ttL⟩) <;>
          exact ⟨rfl, rfl, rfl, rfl, rfl, rfl, rfl⟩

/-- Witness for C1 (amended): the firewall round trip at a concrete fully
populated firewall — `name` and `allowed` survive, `sourceRanges` survives,
but `network` comes back as the full URL string, `source_tags` ends up
holding the serialized target tags, and `description`/`target_tags` are
lost. -/
theorem c1_roundtrip_amended_witness :
    fwRound.network = FwNetwork.net { name := some "default" }
    ∧ (roundtripFw testCtx fwRound).map Firewall.name = some (some "fw1")
    ∧ (roundtripFw testCtx fwRound).map Firewall.allowed
        = some (some [JVal.jobj [("IPProtocol", JVal.jstr "tcp")]])
    ∧ (roundtripFw testCtx fwRound).map Firewall.network
        = some (FwNetwork.raw (JVal.jstr
            "https://www.googleapis.com/compute/v1beta14/projects/test-project/global/networks/default"))
    ∧ (roundtripFw testCtx fwRound).map Firewall.description = some none
    ∧ (roundtripFw testCtx fwRound).map Firewall.target_tags = some none
    ∧ (roundtripFw testCtx fwRound).map Firewall.source_ranges
        = some (some [JVal.jstr "10.0.0.0/8"])
    ∧ (roundtripFw testCtx fwRound).map Firewall.source_tags
        = some (some [JVal.jstr "backend"]) := by
  have h := c1_roundtrip_amended.2.2 testCtx fwRound { name := some "default" } rfl
  exact ⟨rfl, h.1, h.2.1, h.2.2.1, h.2.2.2.1, h.2.2.2.2.1, h.2.2.2.2.2.1, h.2.2.2.2.2.2⟩

end Gce
